import Mathlib

/-!
Shallow embedding of the pasanaku-api use-case layer.

Conventions of the embedding:
* UUIDs are modelled as `Nat`; datetimes and dates as `Nat` tick counts.
* Python float amounts are modelled as `Int` (no float arithmetic is performed
  by the code under consideration; amounts are only stored and copied).
* Each use case `execute` is a pure function threading the database state
  explicitly.  A raised domain exception becomes an `Except.error` carrying the
  exception message, returned together with the untouched state (the enclosing
  transaction rolls back, so an exception leaves the store unchanged).
* Repository mutations (`create` / `update` / `delete`) are recorded in an op
  trace so that "no repository update or delete is performed" is observable.
* `datetime.now()` and `uuid4()` are impure; they enter as explicit `now` /
  fresh-id parameters of `execute`.
-/

/-- view of an `Except` as a sum, used to derive decidable equality -/
def Except.toSum {ε α : Type} : Except ε α → ε ⊕ α
  | Except.error e => Sum.inl e
  | Except.ok a => Sum.inr a

instance {ε α : Type} [DecidableEq ε] [DecidableEq α] : DecidableEq (Except ε α) :=
  fun a b =>
    decidable_of_iff (Except.toSum a = Except.toSum b)
      (by cases a <;> cases b <;> simp [Except.toSum])

namespace Pasanaku

/-- app/modules/groups/domain/entities.py: GroupStatus -/
inductive GroupStatus
  | active
  | completed
  | cancelled
deriving DecidableEq, Repr

/-- app/modules/groups/domain/entities.py: Frequency -/
inductive Frequency
  | weekly
  | biweekly
  | monthly
deriving DecidableEq, Repr

/-- app/modules/groups/domain/entities.py: Group dataclass -/
structure Group where
  id : Nat
  name : String
  description : String
  host_id : Nat
  amount_per_member : Int
  frequency : Frequency
  max_members : Int
  status : GroupStatus
  start_date : Nat
  created_at : Nat
  updated_at : Nat
deriving DecidableEq, Repr

/-- app/modules/members/domain/entities.py: MemberStatus -/
inductive MemberStatus
  | pending
  | active
  | removed
deriving DecidableEq, Repr

/-- app/modules/members/domain/entities.py: Member dataclass -/
structure Member where
  id : Nat
  group_id : Nat
  user_id : Nat
  turn_number : Option Int
  status : MemberStatus
  joined_at : Nat
  updated_at : Nat
deriving DecidableEq, Repr

/-- Member.confirm: set status ACTIVE, touch updated_at. -/
def Member.confirm (m : Member) (now : Nat) : Member :=
  { m with status := MemberStatus.active, updated_at := now }

/-- Member.remove: set status REMOVED, touch updated_at. -/
def Member.remove (m : Member) (now : Nat) : Member :=
  { m with status := MemberStatus.removed, updated_at := now }

/-- app/modules/rounds/domain/entities.py: RoundStatus -/
inductive RoundStatus
  | pending
  | in_progress
  | completed
  | skipped
deriving DecidableEq, Repr

/-- StrEnum construction `RoundStatus(new_status)`: succeeds exactly on the
four enum values, raises ValueError otherwise. -/
def RoundStatus.ofString (s : String) : Option RoundStatus :=
  if s = "pending" then some RoundStatus.pending
  else if s = "in_progress" then some RoundStatus.in_progress
  else if s = "completed" then some RoundStatus.completed
  else if s = "skipped" then some RoundStatus.skipped
  else none

/-- message of the ValueError raised by a failed StrEnum construction -/
def roundStatusValueError (s : String) : String :=
  s ++ " is not a valid RoundStatus"

/-- app/modules/rounds/domain/entities.py: Round dataclass -/
structure Round where
  id : Nat
  group_id : Nat
  beneficiary_id : Nat
  turn_number : Int
  due_date : Nat
  total_amount : Int
  status : RoundStatus
  created_at : Nat
  updated_at : Nat
deriving DecidableEq, Repr

/-- Round.start -/
def Round.start (r : Round) (now : Nat) : Round :=
  { r with status := RoundStatus.in_progress, updated_at := now }

/-- Round.complete -/
def Round.complete (r : Round) (now : Nat) : Round :=
  { r with status := RoundStatus.completed, updated_at := now }

/-- Round.skip -/
def Round.skip (r : Round) (now : Nat) : Round :=
  { r with status := RoundStatus.skipped, updated_at := now }

/-- app/modules/payments/domain/entities.py: PaymentStatus -/
inductive PaymentStatus
  | pending
  | confirmed
  | late
  | missed
deriving DecidableEq, Repr

/-- app/modules/payments/domain/entities.py: Payment dataclass -/
structure Payment where
  id : Nat
  round_id : Nat
  payer_id : Nat
  amount : Int
  status : PaymentStatus
  paid_at : Option Nat
  created_at : Nat
  updated_at : Nat
deriving DecidableEq, Repr

/-- Payment.confirm(paid_at=None): status CONFIRMED, paid_at = paid_at or now. -/
def Payment.confirm (p : Payment) (paid_at_arg : Option Nat) (now : Nat) : Payment :=
  { p with status := PaymentStatus.confirmed,
           paid_at := some (paid_at_arg.getD now),
           updated_at := now }

/-- app/modules/auth/domain/entities.py: UserRole -/
inductive UserRole
  | host
  | player
deriving DecidableEq, Repr

/-- app/modules/auth/domain/entities.py: User dataclass -/
structure User where
  id : Nat
  full_name : String
  email : String
  phone : String
  hashed_password : String
  role : UserRole
  is_active : Bool
deriving DecidableEq, Repr

/-- The relational store: one table per aggregate. -/
structure DB where
  users : List User
  groups : List Group
  members : List Member
  rounds : List Round
  payments : List Payment
deriving DecidableEq, Repr

/-- Trace of repository mutations performed by one use-case execution. -/
inductive RepoOp
  | group_update (g : Group)
  | group_delete (group_id : Nat)
  | member_create (m : Member)
  | member_delete (member_id : Nat)
  | round_create (r : Round)
  | round_update (r : Round)
  | payment_create (p : Payment)
deriving DecidableEq, Repr

/-- app/shared exception taxonomy used by the use cases (NotFound → 404,
Forbidden → 403, Duplicate → 409, Validation/ValueError → 400,
InvalidCredentials → 401, InactiveUser → 403); `unhandled` models a
non-domain exception (e.g. NoResultFound) escaping to a 500. -/
inductive DomainError
  | notFound (msg : String)
  | forbidden (msg : String)
  | duplicate (msg : String)
  | validation (msg : String)
  | invalidCredentials (msg : String)
  | inactiveUser (msg : String)
  | unhandled (msg : String)
deriving DecidableEq, Repr

/-- Result of one use-case execution: the returned value or raised domain
error, the database state after the call, and the mutation trace. -/
structure UCOut (α : Type) where
  res : Except DomainError α
  db : DB
  ops : List RepoOp

namespace GroupRepo

/-- SQLAlchemyGroupRepository.get_by_id -/
def get_by_id (db : DB) (group_id : Nat) : Option Group :=
  db.groups.find? (fun g => g.id == group_id)

/-- SQLAlchemyGroupRepository.update: loads the row by id (scalar_one),
assigns name, description, amount_per_member, frequency, max_members,
status, updated_at on the model, commits, refreshes.  At flush SQLAlchemy
nets out assignments equal to the loaded values: if no assigned column
net-changed, no UPDATE is emitted and the row stays as it was.  If some
column net-changed an UPDATE runs; the updated_at column then takes the
explicitly assigned value when that value itself net-changed, otherwise the
column onupdate default fires (models.py: onupdate = datetime.now), taken
here as the `now` parameter.  `none` models scalar_one raising
NoResultFound. -/
def update (db : DB) (group : Group) (now : Nat) : Option (Group × DB) :=
  match db.groups.find? (fun m => m.id == group.id) with
  | none => none
  | some m =>
      if m.name = group.name ∧ m.description = group.description
          ∧ m.amount_per_member = group.amount_per_member
          ∧ m.frequency = group.frequency
          ∧ m.max_members = group.max_members
          ∧ m.status = group.status
          ∧ m.updated_at = group.updated_at then
        some (m, db)
      else
        let new_updated_at :=
          if m.updated_at = group.updated_at then now else group.updated_at
        let write : Group → Group := fun x =>
          { x with
            name := group.name,
            description := group.description,
            amount_per_member := group.amount_per_member,
            frequency := group.frequency,
            max_members := group.max_members,
            status := group.status,
            updated_at := new_updated_at }
        some (write m,
          { db with
            groups := db.groups.map (fun x => if x.id == group.id then write x else x) })

/-- SQLAlchemyGroupRepository.delete: loads the row (scalar_one) then deletes
it; `none` models NoResultFound. -/
def delete (db : DB) (group_id : Nat) : Option DB :=
  match db.groups.find? (fun g => g.id == group_id) with
  | none => none
  | some _ => some { db with groups := db.groups.filter (fun g => g.id != group_id) }

end GroupRepo

namespace MemberRepo

/-- SQLAlchemyMemberRepository.get_by_id -/
def get_by_id (db : DB) (member_id : Nat) : Option Member :=
  db.members.find? (fun m => m.id == member_id)

/-- SQLAlchemyMemberRepository.get_by_user_and_group (status-blind lookup) -/
def get_by_user_and_group (db : DB) (user_id group_id : Nat) : Option Member :=
  db.members.find? (fun m => m.user_id == user_id && m.group_id == group_id)

/-- SQLAlchemyMemberRepository.count_active -/
def count_active (db : DB) (group_id : Nat) : Nat :=
  (db.members.filter
    (fun m => m.group_id == group_id && m.status == MemberStatus.active)).length

/-- SQLAlchemyMemberRepository.create: insert the row, return it refreshed. -/
def create (db : DB) (member : Member) : Member × DB :=
  (member, { db with members := db.members ++ [member] })

/-- SQLAlchemyMemberRepository.delete: loads the row (scalar_one) then deletes
it; `none` models NoResultFound. -/
def delete (db : DB) (member_id : Nat) : Option DB :=
  match db.members.find? (fun m => m.id == member_id) with
  | none => none
  | some _ => some { db with members := db.members.filter (fun m => m.id != member_id) }

end MemberRepo

namespace RoundRepo

/-- SQLAlchemyRoundRepository.get_by_id -/
def get_by_id (db : DB) (round_id : Nat) : Option Round :=
  db.rounds.find? (fun r => r.id == round_id)

/-- SQLAlchemyRoundRepository.update: loads the row (scalar_one), writes only
status and updated_at, returns the refreshed row; `none` models
NoResultFound. -/
def update (db : DB) (round : Round) : Option (Round × DB) :=
  let write : Round → Round := fun x =>
    { x with status := round.status, updated_at := round.updated_at }
  match db.rounds.find? (fun m => m.id == round.id) with
  | none => none
  | some m =>
      some (write m,
        { db with
          rounds := db.rounds.map (fun x => if x.id == round.id then write x else x) })

/-- SQLAlchemyRoundRepository.create -/
def create (db : DB) (round : Round) : Round × DB :=
  (round, { db with rounds := db.rounds ++ [round] })

end RoundRepo

namespace PaymentRepo

/-- SQLAlchemyPaymentRepository.get_by_payer_and_round -/
def get_by_payer_and_round (db : DB) (payer_id round_id : Nat) : Option Payment :=
  db.payments.find? (fun p => p.payer_id == payer_id && p.round_id == round_id)

/-- SQLAlchemyPaymentRepository.create -/
def create (db : DB) (payment : Payment) : Payment × DB :=
  (payment, { db with payments := db.payments ++ [payment] })

end PaymentRepo

namespace UserRepo

/-- SQLAlchemyUserRepository.get_by_email -/
def get_by_email (db : DB) (email : String) : Option User :=
  db.users.find? (fun u => u.email == email)

end UserRepo

/-- app/modules/groups/application/schemas.py: UpdateGroupRequest (all fields
optional; `None` means "leave unchanged"). -/
structure UpdateGroupRequest where
  name : Option String
  description : Option String
  amount_per_member : Option Int
  frequency : Option Frequency
  max_members : Option Int
deriving DecidableEq, Repr

/-- app/modules/groups/application/schemas.py: GroupResponse -/
structure GroupResponse where
  id : Nat
  name : String
  description : String
  host_id : Nat
  amount_per_member : Int
  frequency : Frequency
  max_members : Int
  status : GroupStatus
  start_date : Nat
  created_at : Nat
  updated_at : Nat
deriving DecidableEq, Repr

/-- field-for-field response mapping used by the groups use cases -/
def groupToResponse (g : Group) : GroupResponse :=
  { id := g.id, name := g.name, description := g.description,
    host_id := g.host_id, amount_per_member := g.amount_per_member,
    frequency := g.frequency, max_members := g.max_members,
    status := g.status, start_date := g.start_date,
    created_at := g.created_at, updated_at := g.updated_at }

/-- app/modules/members/application/schemas.py: AddMemberRequest -/
structure AddMemberRequest where
  user_id : Nat
deriving DecidableEq, Repr

/-- app/modules/members/application/schemas.py: MemberResponse -/
structure MemberResponse where
  id : Nat
  group_id : Nat
  user_id : Nat
  turn_number : Option Int
  status : MemberStatus
  joined_at : Nat
  updated_at : Nat
deriving DecidableEq, Repr

/-- members/application/use_cases.py: _to_response -/
def memberToResponse (m : Member) : MemberResponse :=
  { id := m.id, group_id := m.group_id, user_id := m.user_id,
    turn_number := m.turn_number, status := m.status,
    joined_at := m.joined_at, updated_at := m.updated_at }

/-- app/modules/rounds/application/schemas.py: RoundResponse -/
structure RoundResponse where
  id : Nat
  group_id : Nat
  beneficiary_id : Nat
  turn_number : Int
  due_date : Nat
  total_amount : Int
  status : RoundStatus
  created_at : Nat
  updated_at : Nat
deriving DecidableEq, Repr

/-- rounds/application/use_cases.py: _to_response -/
def roundToResponse (r : Round) : RoundResponse :=
  { id := r.id, group_id := r.group_id, beneficiary_id := r.beneficiary_id,
    turn_number := r.turn_number, due_date := r.due_date,
    total_amount := r.total_amount, status := r.status,
    created_at := r.created_at, updated_at := r.updated_at }

/-- app/modules/payments/application/schemas.py: RegisterPaymentRequest -/
structure RegisterPaymentRequest where
  payer_id : Nat
  amount : Int
deriving DecidableEq, Repr

/-- app/modules/payments/application/schemas.py: PaymentResponse -/
structure PaymentResponse where
  id : Nat
  round_id : Nat
  payer_id : Nat
  amount : Int
  status : PaymentStatus
  paid_at : Option Nat
  created_at : Nat
  updated_at : Nat
deriving DecidableEq, Repr

/-- payments/application/use_cases.py: _to_response -/
def paymentToResponse (p : Payment) : PaymentResponse :=
  { id := p.id, round_id := p.round_id, payer_id := p.payer_id,
    amount := p.amount, status := p.status, paid_at := p.paid_at,
    created_at := p.created_at, updated_at := p.updated_at }

/-- app/modules/auth/application/schemas.py: LoginRequest -/
structure LoginRequest where
  email : String
  password : String
deriving DecidableEq, Repr

/-- app/modules/auth/application/schemas.py: TokenResponse -/
structure TokenResponse where
  access_token : String
  refresh_token : String
deriving DecidableEq, Repr

/-- groups/application/use_cases.py: UpdateGroupUseCase.execute.  `now`
stands for the datetime.now() of the updated_at column onupdate default,
evaluated at flush time inside the repository update. -/
def UpdateGroupUseCase.execute (db : DB) (group_id : Nat)
    (payload : UpdateGroupRequest) (requester_id : Nat) (now : Nat) : UCOut GroupResponse :=
  match GroupRepo.get_by_id db group_id with
  | none => ⟨Except.error (DomainError.notFound "Grupo no encontrado"), db, []⟩
  | some group =>
    if group.host_id ≠ requester_id then
      ⟨Except.error (DomainError.forbidden "Solo el anfitrion puede modificar el grupo"),
        db, []⟩
    else
      let group2 := { group with
        name := (payload.name).getD group.name,
        description := (payload.description).getD group.description,
        amount_per_member := (payload.amount_per_member).getD group.amount_per_member,
        frequency := (payload.frequency).getD group.frequency,
        max_members := (payload.max_members).getD group.max_members }
      match GroupRepo.update db group2 now with
      | none => ⟨Except.error (DomainError.unhandled "NoResultFound"), db, []⟩
      | some (saved, db2) =>
          ⟨Except.ok (groupToResponse saved), db2, [RepoOp.group_update group2]⟩

/-- groups/application/use_cases.py: DeleteGroupUseCase.execute -/
def DeleteGroupUseCase.execute (db : DB) (group_id requester_id : Nat) : UCOut Unit :=
  match GroupRepo.get_by_id db group_id with
  | none => ⟨Except.error (DomainError.notFound "Grupo no encontrado"), db, []⟩
  | some group =>
    if group.host_id ≠ requester_id then
      ⟨Except.error (DomainError.forbidden "Solo el anfitrion puede eliminar el grupo"),
        db, []⟩
    else
      match GroupRepo.delete db group_id with
      | none => ⟨Except.error (DomainError.unhandled "NoResultFound"), db, []⟩
      | some db2 => ⟨Except.ok (), db2, [RepoOp.group_delete group_id]⟩

/-- members/application/use_cases.py: AddMemberUseCase.execute (CU-05).
`now` stands for datetime.now(), `new_id` for the uuid4() default of the
fresh Member. -/
def AddMemberUseCase.execute (db : DB) (group_id : Nat)
    (payload : AddMemberRequest) (requester_id : Nat)
    (now new_id : Nat) : UCOut MemberResponse :=
  match GroupRepo.get_by_id db group_id with
  | none => ⟨Except.error (DomainError.notFound "Grupo no encontrado"), db, []⟩
  | some group =>
    if group.host_id ≠ requester_id then
      ⟨Except.error (DomainError.forbidden "Solo el anfitrion puede agregar miembros"),
        db, []⟩
    else
      let active_count := MemberRepo.count_active db group_id
      if (active_count : Int) ≥ group.max_members then
        ⟨Except.error
          (DomainError.validation "El grupo ya alcanzo el numero maximo de miembros"),
          db, []⟩
      else
        match MemberRepo.get_by_user_and_group db payload.user_id group_id with
        | some _ =>
            ⟨Except.error (DomainError.duplicate "El usuario ya es miembro de este grupo"),
              db, []⟩
        | none =>
            let member : Member :=
              { id := new_id, group_id := group_id, user_id := payload.user_id,
                turn_number := none, status := MemberStatus.pending,
                joined_at := now, updated_at := now }
            let member2 := member.confirm now
            let (saved, db2) := MemberRepo.create db member2
            ⟨Except.ok (memberToResponse saved), db2, [RepoOp.member_create member2]⟩

/-- members/application/use_cases.py: RemoveMemberUseCase.execute -/
def RemoveMemberUseCase.execute (db : DB)
    (group_id member_id requester_id : Nat) : UCOut Unit :=
  match GroupRepo.get_by_id db group_id with
  | none => ⟨Except.error (DomainError.notFound "Grupo no encontrado"), db, []⟩
  | some group =>
    if group.host_id ≠ requester_id then
      ⟨Except.error (DomainError.forbidden "Solo el anfitrion puede eliminar miembros"),
        db, []⟩
    else
      match MemberRepo.get_by_id db member_id with
      | none => ⟨Except.error (DomainError.notFound "Miembro no encontrado"), db, []⟩
      | some _ =>
          match MemberRepo.delete db member_id with
          | none => ⟨Except.error (DomainError.unhandled "NoResultFound"), db, []⟩
          | some db2 => ⟨Except.ok (), db2, [RepoOp.member_delete member_id]⟩

/-- rounds/application/use_cases.py: UpdateRoundStatusUseCase.execute.
`now` stands for datetime.now() inside the transition methods. -/
def UpdateRoundStatusUseCase.execute (db : DB) (group_id round_id : Nat)
    (new_status : String) (requester_id : Nat) (now : Nat) : UCOut RoundResponse :=
  match GroupRepo.get_by_id db group_id with
  | none => ⟨Except.error (DomainError.notFound "Grupo no encontrado"), db, []⟩
  | some group =>
    if group.host_id ≠ requester_id then
      ⟨Except.error (DomainError.forbidden "Solo el anfitrion puede actualizar rondas"),
        db, []⟩
    else
      match RoundRepo.get_by_id db round_id with
      | none => ⟨Except.error (DomainError.notFound "Ronda no encontrada"), db, []⟩
      | some round0 =>
        match RoundStatus.ofString new_status with
        | none =>
            ⟨Except.error (DomainError.validation (roundStatusValueError new_status)),
              db, []⟩
        | some status =>
            let round1 :=
              if status = RoundStatus.in_progress then round0.start now
              else if status = RoundStatus.completed then round0.complete now
              else if status = RoundStatus.skipped then round0.skip now
              else round0
            match RoundRepo.update db round1 with
            | none => ⟨Except.error (DomainError.unhandled "NoResultFound"), db, []⟩
            | some (saved, db2) =>
                ⟨Except.ok (roundToResponse saved), db2, [RepoOp.round_update round1]⟩

/-- payments/application/use_cases.py: RegisterPaymentUseCase.execute (CU-09).
`now` stands for datetime.now(), `new_id` for the uuid4() default of the
fresh Payment.  `requester_id` is accepted and never checked, as in the
source. -/
def RegisterPaymentUseCase.execute (db : DB) (round_id : Nat)
    (payload : RegisterPaymentRequest) (requester_id : Nat)
    (now new_id : Nat) : UCOut PaymentResponse :=
  match RoundRepo.get_by_id db round_id with
  | none => ⟨Except.error (DomainError.notFound "Ronda no encontrada"), db, []⟩
  | some _ =>
    match PaymentRepo.get_by_payer_and_round db payload.payer_id round_id with
    | some _ =>
        ⟨Except.error
          (DomainError.duplicate "El miembro ya tiene un pago registrado para esta ronda"),
          db, []⟩
    | none =>
        let payment : Payment :=
          { id := new_id, round_id := round_id, payer_id := payload.payer_id,
            amount := payload.amount, status := PaymentStatus.pending,
            paid_at := none, created_at := now, updated_at := now }
        let payment2 := payment.confirm none now
        let (saved, db2) := PaymentRepo.create db payment2
        ⟨Except.ok (paymentToResponse saved), db2, [RepoOp.payment_create payment2]⟩

/-- auth/application/use_cases.py: LoginUseCase.execute (CU-02).  The bcrypt
verify and the JWT encoders are opaque library calls, taken as function
parameters. -/
def LoginUseCase.execute (verify : String → String → Bool)
    (create_access_token create_refresh_token : String → String)
    (db : DB) (payload : LoginRequest) : Except DomainError TokenResponse :=
  match UserRepo.get_by_email db payload.email with
  | none =>
      Except.error (DomainError.invalidCredentials "Usuario no encontrado. Por favor registrese")
  | some user =>
    if ¬ verify payload.password user.hashed_password then
      Except.error (DomainError.invalidCredentials "Email o contrasena incorrectos")
    else if ¬ user.is_active then
      Except.error
        (DomainError.inactiveUser "Su cuenta ha sido desactivada. Contacte al administrador")
    else
      Except.ok
        { access_token := create_access_token (toString user.id),
          refresh_token := create_refresh_token (toString user.id) }

/-! Concrete fixtures used by witnesses and counterexamples. -/

/-- fixture: a group hosted by user 10 with capacity 1 -/
def hostGroup : Group :=
  { id := 1, name := "Grupo Navidad", description := "grupo de prueba",
    host_id := 10, amount_per_member := 500, frequency := Frequency.monthly,
    max_members := 1, status := GroupStatus.active, start_date := 0,
    created_at := 0, updated_at := 0 }

/-- fixture: an active membership of user 7 in group 1 -/
def activeMember : Member :=
  { id := 5, group_id := 1, user_id := 7, turn_number := none,
    status := MemberStatus.active, joined_at := 0, updated_at := 0 }

/-- fixture: a completed round of group 1 -/
def sampleRound : Round :=
  { id := 3, group_id := 1, beneficiary_id := 7, turn_number := 1,
    due_date := 0, total_amount := 500, status := RoundStatus.completed,
    created_at := 0, updated_at := 0 }

/-- fixture: an existing payment of payer 7 for round 3 -/
def samplePayment : Payment :=
  { id := 8, round_id := 3, payer_id := 7, amount := 500,
    status := PaymentStatus.confirmed, paid_at := some 1,
    created_at := 1, updated_at := 1 }

/-- fixture: store with the group at capacity, one round, one payment -/
def dbFull : DB :=
  { users := [], groups := [hostGroup], members := [activeMember],
    rounds := [sampleRound], payments := [] }

/-- fixture: dbFull with the existing payment of payer 7 on round 3 -/
def dbPaid : DB :=
  { users := [], groups := [hostGroup], members := [activeMember],
    rounds := [sampleRound], payments := [samplePayment] }

/-- fixture: a two-seat variant of the group for the remove-then-add scenario -/
def roomyGroup : Group :=
  { hostGroup with id := 2, max_members := 2 }

/-- fixture: store with the two-seat group and the membership attached to it -/
def dbRoomy : DB :=
  { users := [], groups := [roomyGroup],
    members := [{ activeMember with group_id := 2 }], rounds := [], payments := [] }

/-- fixture: an update payload changing the five mutable group fields -/
def updatePayload : UpdateGroupRequest :=
  { name := some "Grupo 2025", description := some "renovado",
    amount_per_member := some 600, frequency := some Frequency.weekly,
    max_members := some 5 }

/-- fixture: hostGroup after applying updatePayload to its mutable fields -/
def updatedGroup : Group :=
  { hostGroup with
    name := "Grupo 2025", description := "renovado", amount_per_member := 600,
    frequency := Frequency.weekly, max_members := 5 }

/-- fixture: an inactive user whose stored hash equals the password (used with
the literal-comparison verify function in witnesses) -/
def inactiveUser : User :=
  { id := 21, full_name := "Ana", email := "ana@example.com", phone := "555",
    hashed_password := "secret", role := UserRole.player, is_active := false }

/-- fixture: store holding only the inactive user -/
def dbUsers : DB :=
  { users := [inactiveUser], groups := [], members := [], rounds := [], payments := [] }

/-- After mapping a write `f` over the rows whose key matches `i`, looking up
`i` returns the written image of the row found before, provided `f`
preserves the key. -/
theorem find_over_write {α : Type} (idOf : α → Nat) (f : α → α)
    (hf : ∀ x, idOf (f x) = idOf x) (i : Nat) :
    ∀ (l : List α) (g : α),
      l.find? (fun x => idOf x == i) = some g →
      (l.map (fun x => if idOf x == i then f x else x)).find?
        (fun x => idOf x == i) = some (f g)
  | [], g, h => by simp at h
  | a :: t, g, h => by
      by_cases ha : (idOf a == i) = true
      · rw [List.find?_cons_of_pos t ha] at h
        cases h
        simp only [List.map_cons, if_pos ha]
        exact List.find?_cons_of_pos _ (by simp only [hf]; exact ha)
      · rw [List.find?_cons_of_neg t ha] at h
        simp only [List.map_cons, if_neg ha]
        rw [@List.find?_cons_of_neg _ (fun x => idOf x == i) a
          (t.map (fun x => if idOf x == i then f x else x)) ha]
        exact find_over_write idOf f hf i t g h

/-- Looking up anything satisfying `p` fails after filtering with a keep
predicate `q` that every `p`-row of the list violates. -/
theorem find_none_over_filter {α : Type} (p q : α → Bool) :
    ∀ l : List α, (∀ x ∈ l, p x = true → q x = false) →
      (l.filter q).find? p = none
  | [], _ => rfl
  | a :: t, h => by
      by_cases hq : q a = true
      · rw [List.filter_cons_of_pos hq]
        have hp : ¬ p a = true := by
          intro hpa
          rw [h a (List.mem_cons_self a t) hpa] at hq
          cases hq
        rw [List.find?_cons_of_neg _ hp]
        exact find_none_over_filter p q t (fun x hx => h x (List.mem_cons_of_mem a hx))
      · rw [List.filter_cons_of_neg hq]
        exact find_none_over_filter p q t (fun x hx => h x (List.mem_cons_of_mem a hx))

/-- C2: when the group exists and the requester is not the host, both the
group update and the group delete fail with Forbidden, return the store
unchanged, and perform no repository update or delete. -/
theorem C2_group_mutation_forbidden (db : DB) (gid req now : Nat)
    (payload : UpdateGroupRequest) (g : Group)
    (hg : GroupRepo.get_by_id db gid = some g) (hreq : g.host_id ≠ req) :
    (UpdateGroupUseCase.execute db gid payload req now).res
        = Except.error (DomainError.forbidden "Solo el anfitrion puede modificar el grupo")
      ∧ (UpdateGroupUseCase.execute db gid payload req now).db = db
      ∧ (UpdateGroupUseCase.execute db gid payload req now).ops = []
      ∧ (DeleteGroupUseCase.execute db gid req).res
        = Except.error (DomainError.forbidden "Solo el anfitrion puede eliminar el grupo")
      ∧ (DeleteGroupUseCase.execute db gid req).db = db
      ∧ (DeleteGroupUseCase.execute db gid req).ops = [] := by
  unfold UpdateGroupUseCase.execute DeleteGroupUseCase.execute
  rw [hg]
  simp [hreq]

/-- witness for C2 at a concrete store: requester 99 is not host 10. -/
theorem C2_group_mutation_forbidden_witness :
    (UpdateGroupUseCase.execute dbFull 1 ⟨none, none, none, none, none⟩ 99 5).res
        = Except.error (DomainError.forbidden "Solo el anfitrion puede modificar el grupo")
      ∧ (DeleteGroupUseCase.execute dbFull 1 99).res
        = Except.error (DomainError.forbidden "Solo el anfitrion puede eliminar el grupo") :=
  ⟨(C2_group_mutation_forbidden dbFull 1 99 5 ⟨none, none, none, none, none⟩ hostGroup
      (by decide) (by decide)).1,
    (C2_group_mutation_forbidden dbFull 1 99 5 ⟨none, none, none, none, none⟩ hostGroup
      (by decide) (by decide)).2.2.2.1⟩

/-- C3: when the group exists, the requester is the host, and the active
member count has reached max_members, AddMember fails with the capacity
ValueError and creates nothing — for every payload, so in particular even
when a membership row for (user_id, group_id) already exists. -/
theorem C3_capacity_before_duplicate (db : DB) (gid req now nid : Nat)
    (payload : AddMemberRequest) (g : Group)
    (hg : GroupRepo.get_by_id db gid = some g) (hreq : g.host_id = req)
    (hcap : ((MemberRepo.count_active db gid : Int)) ≥ g.max_members) :
    (AddMemberUseCase.execute db gid payload req now nid).res
        = Except.error
          (DomainError.validation "El grupo ya alcanzo el numero maximo de miembros")
      ∧ (AddMemberUseCase.execute db gid payload req now nid).db = db
      ∧ (AddMemberUseCase.execute db gid payload req now nid).ops = [] := by
  unfold AddMemberUseCase.execute
  rw [hg]
  simp [hreq, hcap]

/-- witness for C3: group 1 has max_members 1 and one active member; the
candidate user 7 already has a membership row, yet the Capacity error wins. -/
theorem C3_capacity_before_duplicate_witness :
    MemberRepo.get_by_user_and_group dbFull 7 1 = some activeMember
      ∧ (AddMemberUseCase.execute dbFull 1 ⟨7⟩ 10 6 9).res
        = Except.error
          (DomainError.validation "El grupo ya alcanzo el numero maximo de miembros") :=
  ⟨by decide,
    (C3_capacity_before_duplicate dbFull 1 10 6 9 ⟨7⟩ hostGroup
      (by decide) (by decide) (by decide)).1⟩

/-- C5: when the round exists and a payment for (payer_id, round_id) already
exists, RegisterPayment fails with Duplicate and creates no payment. -/
theorem C5_payment_duplicate (db : DB) (rid req now nid : Nat)
    (payload : RegisterPaymentRequest) (r : Round) (p : Payment)
    (hr : RoundRepo.get_by_id db rid = some r)
    (hp : PaymentRepo.get_by_payer_and_round db payload.payer_id rid = some p) :
    (RegisterPaymentUseCase.execute db rid payload req now nid).res
        = Except.error
          (DomainError.duplicate "El miembro ya tiene un pago registrado para esta ronda")
      ∧ (RegisterPaymentUseCase.execute db rid payload req now nid).db = db
      ∧ (RegisterPaymentUseCase.execute db rid payload req now nid).ops = [] := by
  unfold RegisterPaymentUseCase.execute
  rw [hr, hp]
  exact ⟨rfl, rfl, rfl⟩

/-- witness for C5: payer 7 already paid round 3 in dbPaid. -/
theorem C5_payment_duplicate_witness :
    (RegisterPaymentUseCase.execute dbPaid 3 ⟨7, 500⟩ 42 11 20).res
        = Except.error
          (DomainError.duplicate "El miembro ya tiene un pago registrado para esta ronda")
      ∧ (RegisterPaymentUseCase.execute dbPaid 3 ⟨7, 500⟩ 42 11 20).db = dbPaid :=
  ⟨(C5_payment_duplicate dbPaid 3 42 11 20 ⟨7, 500⟩ sampleRound samplePayment
      (by decide) (by decide)).1,
    (C5_payment_duplicate dbPaid 3 42 11 20 ⟨7, 500⟩ sampleRound samplePayment
      (by decide) (by decide)).2.1⟩

/-- C6: when the group and round exist and the requester is the host, a
target status string outside the RoundStatus enumeration fails with the
ValueError of the enum construction, before any transition or persist: the
store is unchanged and no repository operation runs. -/
theorem C6_invalid_status_validation (db : DB) (gid rid req now : Nat)
    (s : String) (g : Group) (r : Round)
    (hg : GroupRepo.get_by_id db gid = some g) (hreq : g.host_id = req)
    (hr : RoundRepo.get_by_id db rid = some r)
    (hs : RoundStatus.ofString s = none) :
    (UpdateRoundStatusUseCase.execute db gid rid s req now).res
        = Except.error (DomainError.validation (roundStatusValueError s))
      ∧ (UpdateRoundStatusUseCase.execute db gid rid s req now).db = db
      ∧ (UpdateRoundStatusUseCase.execute db gid rid s req now).ops = [] := by
  unfold UpdateRoundStatusUseCase.execute
  rw [hg]
  simp [hreq, hr, hs]

/-- witness for C6: the string "bogus" is not a RoundStatus value. -/
theorem C6_invalid_status_validation_witness :
    (UpdateRoundStatusUseCase.execute dbFull 1 3 "bogus" 10 5).res
        = Except.error (DomainError.validation (roundStatusValueError "bogus"))
      ∧ (UpdateRoundStatusUseCase.execute dbFull 1 3 "bogus" 10 5).db = dbFull :=
  ⟨(C6_invalid_status_validation dbFull 1 3 10 5 "bogus" hostGroup sampleRound
      (by decide) (by decide) (by decide) (by decide)).1,
    (C6_invalid_status_validation dbFull 1 3 10 5 "bogus" hostGroup sampleRound
      (by decide) (by decide) (by decide) (by decide)).2.1⟩

/-- C7: a login whose email resolves to a user, whose password verifies, but
whose account is inactive fails with InactiveUser — in particular never with
InvalidCredentials, since existence and password verification run first. -/
theorem C7_inactive_beats_invalid (verify : String → String → Bool)
    (tokA tokR : String → String) (db : DB) (payload : LoginRequest) (u : User)
    (hu : UserRepo.get_by_email db payload.email = some u)
    (hpw : verify payload.password u.hashed_password = true)
    (hact : u.is_active = false) :
    LoginUseCase.execute verify tokA tokR db payload
      = Except.error
        (DomainError.inactiveUser "Su cuenta ha sido desactivada. Contacte al administrador") := by
  unfold LoginUseCase.execute
  rw [hu]
  simp [hpw, hact]

/-- C1 counterexample: in dbFull the group exists, requester 99 is not the
host, and member id 77 / round id 77 are absent; RemoveMember and
UpdateRoundStatus both answer Forbidden, not NotFound, because the host
check runs before the member/round lookup. -/
theorem C1_nonhost_missing_id_counterexample :
    (RemoveMemberUseCase.execute dbFull 1 77 99).res
        = Except.error (DomainError.forbidden "Solo el anfitrion puede eliminar miembros")
      ∧ (RemoveMemberUseCase.execute dbFull 1 77 99).res
        ≠ Except.error (DomainError.notFound "Miembro no encontrado")
      ∧ MemberRepo.get_by_id dbFull 77 = none
      ∧ (UpdateRoundStatusUseCase.execute dbFull 1 77 "completed" 99 5).res
        = Except.error (DomainError.forbidden "Solo el anfitrion puede actualizar rondas")
      ∧ (UpdateRoundStatusUseCase.execute dbFull 1 77 "completed" 99 5).res
        ≠ Except.error (DomainError.notFound "Ronda no encontrada")
      ∧ RoundRepo.get_by_id dbFull 77 = none := by
  refine ⟨by decide, by decide, by decide, by decide, by decide, by decide⟩

/-- C1 amended: the group lookup does run before authorization (a missing
group yields NotFound for any requester), but in RemoveMember and
UpdateRoundStatus the member/round lookup runs after the host check: a
non-host requester gets Forbidden even when the member/round id is absent,
and the member/round NotFound is reached only by the host. -/
theorem C1_lookup_order_amended (db : DB) (gid mid rid req now : Nat) (s : String) :
    (GroupRepo.get_by_id db gid = none →
        (RemoveMemberUseCase.execute db gid mid req).res
          = Except.error (DomainError.notFound "Grupo no encontrado")
      ∧ (UpdateRoundStatusUseCase.execute db gid rid s req now).res
          = Except.error (DomainError.notFound "Grupo no encontrado"))
    ∧ (∀ g, GroupRepo.get_by_id db gid = some g → g.host_id ≠ req →
        (RemoveMemberUseCase.execute db gid mid req).res
          = Except.error (DomainError.forbidden "Solo el anfitrion puede eliminar miembros")
      ∧ (UpdateRoundStatusUseCase.execute db gid rid s req now).res
          = Except.error (DomainError.forbidden "Solo el anfitrion puede actualizar rondas"))
    ∧ (∀ g, GroupRepo.get_by_id db gid = some g → g.host_id = req →
        (MemberRepo.get_by_id db mid = none →
          (RemoveMemberUseCase.execute db gid mid req).res
            = Except.error (DomainError.notFound "Miembro no encontrado"))
      ∧ (RoundRepo.get_by_id db rid = none →
          (UpdateRoundStatusUseCase.execute db gid rid s req now).res
            = Except.error (DomainError.notFound "Ronda no encontrada"))) := by
  refine ⟨fun hnone => ?_, fun g hg hreq => ?_, fun g hg hreq => ⟨fun hm => ?_, fun hr => ?_⟩⟩
  · unfold RemoveMemberUseCase.execute UpdateRoundStatusUseCase.execute
    rw [hnone]
    exact ⟨rfl, rfl⟩
  · unfold RemoveMemberUseCase.execute UpdateRoundStatusUseCase.execute
    rw [hg]
    simp [hreq]
  · unfold RemoveMemberUseCase.execute
    rw [hg]
    simp [hreq, hm]
  · unfold UpdateRoundStatusUseCase.execute
    rw [hg]
    simp [hreq, hr]

/-- witness for C1 amended: missing group 42 yields NotFound; in dbFull the
non-host requester 99 gets Forbidden on missing ids; the host 10 gets the
member/round NotFound. -/
theorem C1_lookup_order_amended_witness :
    (RemoveMemberUseCase.execute dbFull 42 77 99).res
        = Except.error (DomainError.notFound "Grupo no encontrado")
      ∧ (RemoveMemberUseCase.execute dbFull 1 77 99).res
        = Except.error (DomainError.forbidden "Solo el anfitrion puede eliminar miembros")
      ∧ (RemoveMemberUseCase.execute dbFull 1 77 10).res
        = Except.error (DomainError.notFound "Miembro no encontrado")
      ∧ (UpdateRoundStatusUseCase.execute dbFull 1 77 "completed" 10 5).res
        = Except.error (DomainError.notFound "Ronda no encontrada") :=
  ⟨((C1_lookup_order_amended dbFull 42 77 77 99 5 "completed").1 (by decide)).1,
    ((C1_lookup_order_amended dbFull 1 77 77 99 5 "completed").2.1 hostGroup
      (by decide) (by decide)).1,
    ((C1_lookup_order_amended dbFull 1 77 77 10 5 "completed").2.2 hostGroup
      (by decide) (by decide)).1 (by decide),
    ((C1_lookup_order_amended dbFull 1 77 77 10 5 "completed").2.2 hostGroup
      (by decide) (by decide)).2 (by decide)⟩

/-- C4: when the round exists — whatever its status — and no payment exists
for (payer_id, round_id), RegisterPayment creates exactly one payment,
confirmed with paid_at = now, and returns it; the response status is
confirmed, hence never pending, late, or missed. -/
theorem C4_payment_auto_confirmed (db : DB) (rid req now nid : Nat)
    (payload : RegisterPaymentRequest) (r : Round)
    (hr : RoundRepo.get_by_id db rid = some r)
    (hp : PaymentRepo.get_by_payer_and_round db payload.payer_id rid = none) :
    ∃ p, (RegisterPaymentUseCase.execute db rid payload req now nid).res
          = Except.ok (paymentToResponse p)
      ∧ p.status = PaymentStatus.confirmed
      ∧ p.paid_at = some now
      ∧ p.payer_id = payload.payer_id
      ∧ p.round_id = rid
      ∧ (RegisterPaymentUseCase.execute db rid payload req now nid).db.payments
          = db.payments ++ [p]
      ∧ (RegisterPaymentUseCase.execute db rid payload req now nid).ops
          = [RepoOp.payment_create p]
      ∧ (paymentToResponse p).status ≠ PaymentStatus.pending
      ∧ (paymentToResponse p).status ≠ PaymentStatus.late
      ∧ (paymentToResponse p).status ≠ PaymentStatus.missed := by
  refine ⟨Payment.confirm
    { id := nid, round_id := rid, payer_id := payload.payer_id,
      amount := payload.amount, status := PaymentStatus.pending,
      paid_at := none, created_at := now, updated_at := now } none now, ?_⟩
  unfold RegisterPaymentUseCase.execute
  rw [hr, hp]
  simp [Payment.confirm, PaymentRepo.create, paymentToResponse]

/-- witness for C4 at a concrete store: round 3 is completed and still
accepts the payment, which comes back confirmed with paid_at = 11. -/
theorem C4_payment_auto_confirmed_witness :
    sampleRound.status = RoundStatus.completed
      ∧ ∃ p, (RegisterPaymentUseCase.execute dbFull 3 ⟨7, 500⟩ 42 11 20).res
          = Except.ok (paymentToResponse p)
        ∧ p.status = PaymentStatus.confirmed
        ∧ p.paid_at = some 11 := by
  refine ⟨by decide, ?_⟩
  obtain ⟨p, h1, h2, h3, _⟩ :=
    C4_payment_auto_confirmed dbFull 3 42 11 20 ⟨7, 500⟩ sampleRound
      (by decide) (by decide)
  exact ⟨p, h1, h2, h3⟩

/-- C8: when the group and round exist, the requester is the host, and the
target status string is "pending" (a valid enumeration value), no transition
method fires: the call succeeds returning the round with its prior status,
the round is still persisted unchanged through the repository update, and
the stored round keeps its prior value. -/
theorem C8_pending_skips_transition (db : DB) (gid rid req now : Nat)
    (g : Group) (r : Round)
    (hg : GroupRepo.get_by_id db gid = some g) (hreq : g.host_id = req)
    (hr : RoundRepo.get_by_id db rid = some r) :
    (UpdateRoundStatusUseCase.execute db gid rid "pending" req now).res
        = Except.ok (roundToResponse r)
      ∧ (UpdateRoundStatusUseCase.execute db gid rid "pending" req now).ops
        = [RepoOp.round_update r]
      ∧ RoundRepo.get_by_id
          (UpdateRoundStatusUseCase.execute db gid rid "pending" req now).db rid
        = some r := by
  have hr2 : db.rounds.find? (fun x => x.id == rid) = some r := hr
  have hrid : r.id = rid := by simpa using List.find?_some hr2
  have hparse : RoundStatus.ofString "pending" = some RoundStatus.pending := rfl
  have hupd : RoundRepo.update db r
      = some (r,
          { db with
            rounds := db.rounds.map (fun x =>
              if x.id == rid then
                { x with status := r.status, updated_at := r.updated_at }
              else x) }) := by
    unfold RoundRepo.update
    rw [hrid, hr2]
  have hfind :
      (db.rounds.map (fun x =>
        if x.id == rid then
          { x with status := r.status, updated_at := r.updated_at }
        else x)).find? (fun x => x.id == rid) = some r :=
    find_over_write Round.id
      (fun x => { x with status := r.status, updated_at := r.updated_at })
      (fun _ => rfl) rid db.rounds r hr2
  simp only [beq_iff_eq] at hfind
  unfold UpdateRoundStatusUseCase.execute
  rw [hg]
  simp [hreq, hr2, hparse, hupd, RoundRepo.get_by_id, hfind, -List.find?_map]

/-- C10 counterexample: the host updates group 1 changing its mutable fields
while the column onupdate default evaluates to 99; the call succeeds, yet
the stored updated_at moves from 0 to 99 — a sixth differing field, so the
claim that only name, description, amount_per_member, frequency and
max_members can differ is false. -/
theorem C10_updated_at_bumped_counterexample :
    (UpdateGroupUseCase.execute dbFull 1 updatePayload 10 99).res
        = Except.ok (groupToResponse { updatedGroup with updated_at := 99 })
      ∧ GroupRepo.get_by_id dbFull 1 = some hostGroup
      ∧ GroupRepo.get_by_id (UpdateGroupUseCase.execute dbFull 1 updatePayload 10 99).db 1
        = some { updatedGroup with updated_at := 99 }
      ∧ hostGroup.updated_at = 0
      ∧ ({ updatedGroup with updated_at := 99 } : Group).updated_at ≠ hostGroup.updated_at := by
  refine ⟨by decide, by decide, by decide, by decide, by decide⟩

/-- C10 amended: a group update by the host succeeds, and whatever the
payload, the stored group afterwards agrees with the stored group before on
id, host_id, status, start_date and created_at; besides the five mutable
payload fields only updated_at can differ, bumped by the column onupdate
default when the update net-changes a column. -/
theorem C10_update_group_frame (db : DB) (gid req now : Nat)
    (payload : UpdateGroupRequest) (g : Group)
    (hg : GroupRepo.get_by_id db gid = some g) (hreq : g.host_id = req) :
    (∃ resp, (UpdateGroupUseCase.execute db gid payload req now).res = Except.ok resp)
      ∧ ∀ g2, GroupRepo.get_by_id (UpdateGroupUseCase.execute db gid payload req now).db gid
            = some g2 →
          g2.id = g.id ∧ g2.host_id = g.host_id ∧ g2.status = g.status
            ∧ g2.start_date = g.start_date ∧ g2.created_at = g.created_at := by
  have hg2 : db.groups.find? (fun x => x.id == gid) = some g := hg
  have hgid : g.id = gid := by simpa using List.find?_some hg2
  have hfind :
      (db.groups.map (fun x =>
        if x.id == gid then
          { x with
            name := (payload.name).getD g.name,
            description := (payload.description).getD g.description,
            amount_per_member := (payload.amount_per_member).getD g.amount_per_member,
            frequency := (payload.frequency).getD g.frequency,
            max_members := (payload.max_members).getD g.max_members,
            status := g.status,
            updated_at := now }
        else x)).find? (fun x => x.id == gid)
      = some { g with
            name := (payload.name).getD g.name,
            description := (payload.description).getD g.description,
            amount_per_member := (payload.amount_per_member).getD g.amount_per_member,
            frequency := (payload.frequency).getD g.frequency,
            max_members := (payload.max_members).getD g.max_members,
            updated_at := now } :=
    find_over_write Group.id (fun x =>
      { x with
        name := (payload.name).getD g.name,
        description := (payload.description).getD g.description,
        amount_per_member := (payload.amount_per_member).getD g.amount_per_member,
        frequency := (payload.frequency).getD g.frequency,
        max_members := (payload.max_members).getD g.max_members,
        status := g.status,
        updated_at := now }) (fun _ => rfl) gid db.groups g hg2
  simp only [beq_iff_eq] at hfind
  rw [hgid, hreq] at hfind
  unfold UpdateGroupUseCase.execute GroupRepo.update
  rw [hg]
  simp [hreq, hg2, hgid, GroupRepo.get_by_id, hfind, -List.find?_map]
  by_cases hch : g.name = (payload.name).getD g.name
      ∧ g.description = (payload.description).getD g.description
      ∧ g.amount_per_member = (payload.amount_per_member).getD g.amount_per_member
      ∧ g.frequency = (payload.frequency).getD g.frequency
      ∧ g.max_members = (payload.max_members).getD g.max_members
  · rw [if_pos hch]
    simp [hg2, hgid, hreq, GroupRepo.get_by_id, -List.find?_map]
  · rw [if_neg hch]
    simp [hfind, -List.find?_map]

/-- witness for C10 amended: after the concrete update, the stored group
keeps id, host_id, status, start_date and created_at. -/
theorem C10_update_group_frame_witness :
    ({ updatedGroup with updated_at := 99 } : Group).id = hostGroup.id
      ∧ ({ updatedGroup with updated_at := 99 } : Group).host_id = hostGroup.host_id
      ∧ ({ updatedGroup with updated_at := 99 } : Group).status = hostGroup.status
      ∧ ({ updatedGroup with updated_at := 99 } : Group).start_date = hostGroup.start_date
      ∧ ({ updatedGroup with updated_at := 99 } : Group).created_at = hostGroup.created_at :=
  (C10_update_group_frame dbFull 1 10 99 updatePayload hostGroup
    (by decide) (by decide)).2 { updatedGroup with updated_at := 99 } (by decide)

/-- witness for C8: status "pending" on completed round 3 succeeds and leaves
the stored status completed. -/
theorem C8_pending_skips_transition_witness :
    (UpdateRoundStatusUseCase.execute dbFull 1 3 "pending" 10 5).res
        = Except.ok (roundToResponse sampleRound)
      ∧ RoundRepo.get_by_id (UpdateRoundStatusUseCase.execute dbFull 1 3 "pending" 10 5).db 3
        = some sampleRound :=
  ⟨(C8_pending_skips_transition dbFull 1 3 10 5 hostGroup sampleRound
      (by decide) (by decide) (by decide)).1,
    (C8_pending_skips_transition dbFull 1 3 10 5 hostGroup sampleRound
      (by decide) (by decide) (by decide)).2.2⟩

/-- C9: RemoveMember hard-deletes the membership row: afterwards the member
id resolves to nothing, every surviving row is unchanged (in particular none
was switched to status removed), the (user_id, group_id) lookup is empty,
and — capacity permitting — a subsequent AddMember for the same pair passes
the duplicate check and succeeds. -/
theorem C9_remove_is_hard_delete (db : DB) (gid mid uid req now nid : Nat)
    (g : Group) (m : Member)
    (hg : GroupRepo.get_by_id db gid = some g) (hreq : g.host_id = req)
    (hm : MemberRepo.get_by_id db mid = some m)
    (huniq : ∀ x ∈ db.members, x.user_id = uid → x.group_id = gid → x.id = mid)
    (hcap : ((MemberRepo.count_active
        (RemoveMemberUseCase.execute db gid mid req).db gid : Int)) < g.max_members) :
    (RemoveMemberUseCase.execute db gid mid req).res = Except.ok ()
      ∧ MemberRepo.get_by_id (RemoveMemberUseCase.execute db gid mid req).db mid = none
      ∧ (∀ x ∈ (RemoveMemberUseCase.execute db gid mid req).db.members, x ∈ db.members)
      ∧ MemberRepo.get_by_user_and_group
          (RemoveMemberUseCase.execute db gid mid req).db uid gid = none
      ∧ ∃ resp, (AddMemberUseCase.execute (RemoveMemberUseCase.execute db gid mid req).db
          gid ⟨uid⟩ req now nid).res = Except.ok resp := by
  have hm2 : db.members.find? (fun x => x.id == mid) = some m := hm
  have hexec : RemoveMemberUseCase.execute db gid mid req
      = ⟨Except.ok (),
          { db with members := db.members.filter (fun x => x.id != mid) },
          [RepoOp.member_delete mid]⟩ := by
    unfold RemoveMemberUseCase.execute MemberRepo.delete
    rw [hg]
    simp [hreq, hm2, MemberRepo.get_by_id]
  have hnone : (db.members.filter (fun x => x.id != mid)).find?
      (fun x => x.id == mid) = none := by
    refine find_none_over_filter _ _ db.members (fun x _ hx => ?_)
    have : x.id = mid := by simpa using hx
    simp [this]
  have hpair : (db.members.filter (fun x => x.id != mid)).find?
      (fun x => x.user_id == uid && x.group_id == gid) = none := by
    refine find_none_over_filter _ _ db.members (fun x hxmem hx => ?_)
    have hx2 : x.user_id = uid ∧ x.group_id = gid := by simpa using hx
    simp [huniq x hxmem hx2.1 hx2.2]
  rw [hexec] at hcap ⊢
  refine ⟨rfl, hnone, fun x hx => List.mem_of_mem_filter hx, hpair, ?_⟩
  have hgA : GroupRepo.get_by_id
      { db with members := db.members.filter (fun x => x.id != mid) } gid = some g := hg
  unfold AddMemberUseCase.execute
  rw [hgA]
  simp only [MemberRepo.count_active] at hcap
  simp only [List.filter_filter] at hcap
  simp [hreq, hpair, MemberRepo.get_by_user_and_group, MemberRepo.count_active,
    MemberRepo.create]
  split
  · rename_i hcond
    exact absurd hcond (not_le.mpr hcap)
  · simp

/-- witness for C9: removing member 5 from the two-seat group 2 and re-adding
user 7 succeeds end to end. -/
theorem C9_remove_is_hard_delete_witness :
    (RemoveMemberUseCase.execute dbRoomy 2 5 10).res = Except.ok ()
      ∧ MemberRepo.get_by_user_and_group
          (RemoveMemberUseCase.execute dbRoomy 2 5 10).db 7 2 = none
      ∧ ∃ resp, (AddMemberUseCase.execute (RemoveMemberUseCase.execute dbRoomy 2 5 10).db
          2 ⟨7⟩ 10 6 9).res = Except.ok resp := by
  obtain ⟨h1, _, _, h4, h5⟩ :=
    C9_remove_is_hard_delete dbRoomy 2 5 7 10 6 9 roomyGroup
      { activeMember with group_id := 2 }
      (by decide) (by decide) (by decide) (by decide) (by decide)
  exact ⟨h1, h4, h5⟩

/-- witness for C7: inactive user 21 with the matching password "secret". -/
theorem C7_inactive_beats_invalid_witness :
    LoginUseCase.execute (fun p h => p == h) id id dbUsers ⟨"ana@example.com", "secret"⟩
      = Except.error
        (DomainError.inactiveUser "Su cuenta ha sido desactivada. Contacte al administrador") :=
  C7_inactive_beats_invalid (fun p h => p == h) id id dbUsers
    ⟨"ana@example.com", "secret"⟩ inactiveUser (by decide) (by decide) (by decide)

end Pasanaku
